import Mathlib

/-!
Verification of the TaskArena job-queue orchestration engine.

The Python sources are embedded shallowly:
* `service.py`  — the SaaS background service (HTTP ingress, worker threads,
  `claim_job`/`finish_job`/`process_job`, `run_plan`/`run_apply`, `log_event`);
* `.agents/tools/util.py`   — the generic queue helpers (`claim`, `finish`,
  `claude_plan_apply`);
* `.agents/tools/worker.py` — the generic worker loop (`run_once`);
* `.agents/tools/judge.py`  — the scoreboard drain (`load_score`, drain cycle).

File-system state (the four queue directories, artifact files, the log and the
scoreboard snapshot) is made explicit; external subprocess invocations are
represented by call descriptors plus result oracles.
-/

namespace TaskArena

/-- Python `str.strip()` whitespace set (ASCII subset relevant here). -/
def isPySpace (c : Char) : Bool :=
  c == ' ' || c == '\t' || c == '\n' || c == '\r' || c == '\x0B' || c == '\x0C'

/-- Python `str.strip()`: drop leading and trailing whitespace. -/
def pyStrip (s : String) : String :=
  ⟨((s.data.dropWhile isPySpace).reverse.dropWhile isPySpace).reverse⟩

/-- Result of one completed subprocess (`subprocess.CompletedProcess`). -/
structure ProcResult where
  returncode : Int
  stdout : String
  stderr : String
deriving DecidableEq

/-- A subprocess invocation as issued by the code: its argument vector and the
`timeout=` keyword passed to `subprocess.run` (`none` when absent). -/
structure SubprocCall where
  args : List String
  timeoutSeconds : Option Nat
deriving DecidableEq

/-- JSON-ish scalar values appearing in log entries. -/
inductive LVal where
  | s (v : String)
  | b (v : Bool)
  | n (v : Int)
  | null
deriving DecidableEq

/-- A log entry: one JSON object, kept as its ordered key/value pairs. -/
abbrev LogEntry := List (String × LVal)

/-- Field lookup in a log entry. -/
def lookupKey (e : LogEntry) (k : String) : Option LVal :=
  (List.find? (fun kv => kv.1 == k) e).map (fun kv => kv.2)

/-! ## The job store: four state directories

A directory holds job records named by id; we model each directory as the list
of ids it holds.  `service.py` and `util.py` implement the same four-directory
state machine (`inbox`, `running`, `done`, `failed`). -/

structure QueueState where
  inbox : List String
  running : List String
  done : List String
  failed : List String
deriving DecidableEq

/-- In how many places (counting multiplicity) does `id` reside? -/
def residency (s : QueueState) (id : String) : Nat :=
  s.inbox.count id + s.running.count id + s.done.count id + s.failed.count id

/-- The central invariant: a job id is present in at most one state directory
(and at most once there). -/
def Exclusive (s : QueueState) : Prop := ∀ id, residency s id ≤ 1

/-- `enqueue` / `enqueue_job`: atomically write a fresh record into `inbox`. -/
def enqueue (s : QueueState) (id : String) : QueueState :=
  { s with inbox := id :: s.inbox }

/-- Lexicographic comparison of file names by code point, as Python's
`sorted()` orders directory entries. -/
def charsLe : List Char → List Char → Bool
  | [], _ => true
  | _ :: _, [] => false
  | a :: as, b :: bs =>
      if a.toNat < b.toNat then true
      else if b.toNat < a.toNat then false
      else charsLe as bs

def nameLe (a b : String) : Bool := charsLe a.data b.data

/-- Stable insertion of a name into an already sorted list of names. -/
def insertSorted (a : String) : List String → List String
  | [] => [a]
  | b :: l => if nameLe a b then a :: b :: l else b :: insertSorted a l

/-- Python `sorted(...)` over directory entries (lexicographic). -/
def sortedIds (l : List String) : List String :=
  l.foldr insertSorted []

/-- `claim` (`util.py`) / `claim_job` (`service.py`): scan `inbox` in sorted
order and atomically rename the first candidate into `running`. -/
def claim (s : QueueState) : Option String × QueueState :=
  match (sortedIds s.inbox).head? with
  | none => (none, s)
  | some id =>
      (some id, { s with inbox := s.inbox.erase id, running := id :: s.running })

/-- `finish` (`util.py`) / `finish_job` (`service.py`): rename a running record
into `done` when `ok`, else into `failed`. -/
def finish (s : QueueState) (id : String) (ok : Bool) : QueueState :=
  { s with running := s.running.erase id,
           done   := if ok then id :: s.done else s.done,
           failed := if ok then s.failed else id :: s.failed }

/-! ## Scoreboard drain (`judge.py`) -/

structure Score where
  pass : Nat
  fail : Nat
deriving DecidableEq

/-- `judge.py` `load_score`: `try: json.loads(SCORE_FILE.read_text())` with a
bare `except` returning zeroed counters.  The snapshot file is either missing
(read raises), unparseable (loads raises), or a valid scoreboard object. -/
inductive ScoreFile where
  | missing
  | corrupt (raw : String)
  | valid (sc : Score)
deriving DecidableEq

def load_score : ScoreFile → Score
  | .missing => { pass := 0, fail := 0 }
  | .corrupt _ => { pass := 0, fail := 0 }
  | .valid sc => sc

/-- The `for p in list(DONE.glob("*.json")): s["pass"] += 1; p.unlink(...)`
loop: one increment per consumed record. -/
def drainDone (sc : Score) (done : List String) : Score :=
  done.foldl (fun acc _ => { acc with pass := acc.pass + 1 }) sc

/-- Same for `FAILED` and the fail counter. -/
def drainFailed (sc : Score) (failed : List String) : Score :=
  failed.foldl (fun acc _ => { acc with fail := acc.fail + 1 }) sc

structure JudgeCycleOut where
  score : Score
  queue : QueueState
  snapshot : ScoreFile
deriving DecidableEq

/-- One iteration of the `judge.py` main loop: count and delete every record
in `done`, then in `failed`, then rewrite the snapshot with `save_score`. -/
def judgeCycle (sc : Score) (s : QueueState) : JudgeCycleOut :=
  let sc1 := drainDone sc s.done
  let sc2 := drainFailed sc1 s.failed
  { score := sc2,
    queue := { s with done := [], failed := [] },
    snapshot := .valid sc2 }

/-! ## Generic agent invocation (`util.py`) -/

/-- `util.py` `claude_plan_apply`'s local `run`: every call passes
`timeout=600`. -/
def util_run_call (args : List String) : SubprocCall :=
  { args := args, timeoutSeconds := some 600 }

/-- `util.py` `_cli_supports_dash_p`'s help probe: `timeout=15`. -/
def cli_help_call : SubprocCall :=
  { args := ["claude", "--help"], timeoutSeconds := some 15 }

/-- Outcome of `claude_plan_apply`: the returned `(rc, out, err)` plus the
invocations it issued, in order. -/
structure CPAResult where
  rc : Int
  out : String
  err : String
  calls : List SubprocCall
deriving DecidableEq

/-- `util.py` `claude_plan_apply` (claude assumed available; otherwise it
raises before invoking anything).  `agent` maps each issued invocation to its
completed result; `planTemp`/`applyTemp` are the temporary file names used by
the file-based branch. -/
def claude_plan_apply (dashP : Bool) (repo plan_md apply_md : String)
    (planTemp applyTemp : String) (agent : SubprocCall → ProcResult) : CPAResult :=
  if dashP then
    let c1 := util_run_call ["claude", "-p", plan_md]
    let p1 := agent c1
    let c2 := util_run_call ["claude", "-p", apply_md]
    let p2 := agent c2
    { rc := p2.returncode,
      out := p1.stdout ++ "\n---\n" ++ p2.stdout,
      err := p1.stderr ++ "\n---\n" ++ p2.stderr,
      calls := [c1, c2] }
  else
    let c1 := util_run_call ["claude", "code", "plan", "--repo", repo, "--plan", planTemp]
    let p1 := agent c1
    let c2 := util_run_call ["claude", "code", "apply", "--repo", repo, "--plan", applyTemp]
    let p2 := agent c2
    { rc := p2.returncode,
      out := p1.stdout ++ "\n---\n" ++ p2.stdout,
      err := p1.stderr ++ "\n---\n" ++ p2.stderr,
      calls := [c1, c2] }

/-! ## The SaaS service (`service.py`) -/

/-- `_APPLY_TEMPLATE.format(job_id=…, repo=…, rules=…, plan=…, prompt=…)`. -/
def applyTemplate (job_id repo rules plan prompt : String) : String :=
  "# TaskArena Apply Instructions\n\nYou are executing TaskArena job " ++ job_id
    ++ " in repository " ++ repo
    ++ ".\n\n## Combined Rules (Host precedence)\n" ++ rules
    ++ "\n\n## Approved Plan\n" ++ plan
    ++ "\n\n## Task Prompt\n" ++ prompt
    ++ "\n\nFollow the approved plan. Explain the changes you make and ensure artifacts are generated.\n"

/-- The apply prompt built by `run_apply`:
`approved_plan = plan_output.strip() or "Plan output missing."`. -/
def run_apply_prompt (job_id repo rules plan_output prompt : String) : String :=
  let approved := if pyStrip plan_output = "" then "Plan output missing." else pyStrip plan_output
  applyTemplate job_id repo rules approved prompt

/-- Modelled from the spec: "write the apply text (which embeds the plan's
output verbatim as :approved plan:) to a second temporary file" — the apply
prompt with the raw plan stdout substituted unchanged. -/
def run_apply_prompt_spec (job_id repo rules plan_output prompt : String) : String :=
  applyTemplate job_id repo rules plan_output prompt

/-- `service.py` `_run_subprocess`:
`subprocess.run(args, capture_output=True, text=True)` — no `timeout=`. -/
def run_subprocess_call (args : List String) : SubprocCall :=
  { args := args, timeoutSeconds := none }

/-- `_detect_supports_dash_p`'s help probe: `timeout=10`. -/
def detect_help_call (claudeCli : String) : SubprocCall :=
  { args := [claudeCli, "--help"], timeoutSeconds := some 10 }

/-- The agent invocation issued by `run_plan` (single-shot vs file-based). -/
def run_plan_call (dashP : Bool) (claudeCli planPrompt repo tempPath : String) : SubprocCall :=
  if dashP then run_subprocess_call [claudeCli, "-p", planPrompt]
  else run_subprocess_call [claudeCli, "code", "plan", "--repo", repo, "--plan", tempPath]

/-- The agent invocation issued by `run_apply`. -/
def run_apply_call (dashP : Bool) (claudeCli applyPrompt repo tempPath : String) : SubprocCall :=
  if dashP then run_subprocess_call [claudeCli, "-p", applyPrompt]
  else run_subprocess_call [claudeCli, "code", "apply", "--repo", repo, "--plan", tempPath]

/-- `service.py` `log_event`: `entry.setdefault("ts", time.time())`, then the
entry is appended to the log as one JSON line. -/
def log_event (now : Int) (e : LogEntry) : LogEntry :=
  if (lookupKey e "ts").isSome then e else e ++ [("ts", LVal.n now)]

/-- The `json.loads` outcome for a claimed record file; for a parsed object,
the optional fields `process_job` reads via `job.get`. -/
inductive JobRecord where
  | malformed (stem : String)
  | parsed (jid jdir jprompt jrepoKey : Option String)

/-- The environment `process_job` runs against: repository validity, agent
availability/flavor, and the two subprocess results. -/
structure ServiceEnv where
  repoIsDir : Bool
  claudeFound : Bool
  supportsDashP : Bool
  planProc : ProcResult
  applyProc : ProcResult
deriving DecidableEq

/-- Observable outcome of `process_job`: the `finish_job` success flag, the
artifacts written (name, content, in order), whether the plan/apply agent
invocations happened, and the log entry passed to `log_event`. -/
structure PJOut where
  success : Bool
  artifacts : List (String × String)
  planInvoked : Bool
  applyInvoked : Bool
  log : LogEntry
deriving DecidableEq

/-- The `RuntimeError` message of `_resolve_claude_cli`. -/
def claudeNotFoundMsg : String :=
  "Claude CLI executable not found. Install the `claude` command, add it to your PATH, or set CLAUDE_CLI to its full path before starting TaskArena."

/-- `service.py` `process_job`.  `now` models `time.time()`, `freshId` the
`uuid.uuid4()` fallback id, `computeKey` the `compute_repo_key` digest. -/
def process_job (env : ServiceEnv) (now : Int) (freshId : String)
    (computeKey : String → String) (rec : JobRecord) : PJOut :=
  match rec with
  | .malformed stem =>
      { success := false, artifacts := [], planInvoked := false, applyInvoked := false,
        log := log_event now
          [("id", .s stem), ("dir", .null), ("repo_key", .null),
           ("ok", .b false), ("error", .s "Invalid job JSON")] }
  | .parsed jid jdir jprompt jrepoKey =>
      let repo := jdir.getD "."
      let prompt := pyStrip (jprompt.getD "")
      let repoKey := match jrepoKey with
        | some k => if k = "" then computeKey repo else k
        | none => computeKey repo
      let jobId := match jid with
        | some i => if i = "" then freshId else i
        | none => freshId
      if !env.repoIsDir then
        let msg := "Repository path does not exist: " ++ repo
        { success := false, artifacts := [("error.txt", msg)],
          planInvoked := false, applyInvoked := false,
          log := log_event now
            [("id", .s jobId), ("dir", .s repo), ("repo_key", .s repoKey),
             ("ok", .b false), ("error", .s msg)] }
      else if prompt = "" then
        let msg := "Empty prompt provided."
        { success := false, artifacts := [("error.txt", msg)],
          planInvoked := false, applyInvoked := false,
          log := log_event now
            [("id", .s jobId), ("dir", .s repo), ("repo_key", .s repoKey),
             ("ok", .b false), ("error", .s msg)] }
      else if !env.claudeFound then
        { success := false, artifacts := [("stderr.txt", claudeNotFoundMsg)],
          planInvoked := false, applyInvoked := false,
          log := log_event now
            [("id", .s jobId), ("dir", .s repo), ("repo_key", .s repoKey),
             ("ok", .b false), ("error", .s claudeNotFoundMsg)] }
      else
        let planArts := [("plan.stdout.txt", env.planProc.stdout),
                         ("plan.stderr.txt", env.planProc.stderr)]
        if env.planProc.returncode ≠ 0 then
          { success := false, artifacts := planArts,
            planInvoked := true, applyInvoked := false,
            log := log_event now
              [("id", .s jobId), ("dir", .s repo), ("repo_key", .s repoKey),
               ("ok", .b false), ("error", .s "Plan step failed")] }
        else
          let ok := env.applyProc.returncode == 0
          { success := ok,
            artifacts := planArts ++
              [("apply.stdout.txt", env.applyProc.stdout),
               ("apply.stderr.txt", env.applyProc.stderr)],
            planInvoked := true, applyInvoked := true,
            log := log_event now
              [("id", .s jobId), ("dir", .s repo), ("repo_key", .s repoKey),
               ("ok", .b ok)] }

/-- Observable outcome of one `Worker.run` loop iteration. -/
structure WorkerIterOut where
  finished : Option Bool
  log : Option LogEntry
  continues : Bool
deriving DecidableEq

/-- One iteration of `service.py` `Worker.run`: claim, then `process_job`
inside `try/except Exception`.  `pj` is the run of `process_job` on the
claimed record, `.error e` when it raised with message `e`. -/
def workerIteration (now : Int) (claimed : Option String)
    (pj : Except String PJOut) : WorkerIterOut :=
  match claimed with
  | none => { finished := none, log := none, continues := true }
  | some stem =>
    match pj with
    | .ok out => { finished := some out.success, log := some out.log, continues := true }
    | .error e =>
        { finished := some false,
          log := some (log_event now
            [("id", .s stem), ("dir", .null), ("repo_key", .null),
             ("ok", .b false), ("error", .s ("Worker exception: " ++ e))]),
          continues := true }

/-! ## The generic worker (`worker.py`) -/

/-- A parsed generic-queue task record, with the keys `run_once` touches. -/
structure WTask where
  tid : Option String
  trepo : Option String
  tprompt : Option String
deriving DecidableEq

inductive WRecord where
  | malformed
  | parsed (t : WTask)

/-- Observable outcome of a completed `run_once` on a claimed record: the
`finish` flag, the two artifact files, whether `claude_plan_apply` ran, and
the `logj` entry. -/
structure RunOnceOut where
  ok : Bool
  stdoutArt : String
  stderrArt : String
  agentInvoked : Bool
  log : LogEntry
deriving DecidableEq

/-- `worker.py` `run_once` after a successful `claim`.  `json.loads` runs
before the `try` block and `task["id"]` is read after the `except` handler;
both raise uncaught (`.error …`), leaving the record in `running` with no
`finish` and no log line.  `agentResult` is the run of `claude_plan_apply`,
`.error e` when it raised (e.g. a subprocess timeout). -/
def run_once (claudeAvail : Bool)
    (agentResult : Except String (Int × String × String))
    (latency : Int) (rec : WRecord) : Except String RunOnceOut :=
  match rec with
  | .malformed => .error "json.JSONDecodeError"
  | .parsed t =>
      let tryRes : Bool × String × String × Bool :=
        match t.tprompt with
        | none => (false, "", "KeyError: 'prompt'", false)
        | some _ =>
          if !claudeAvail then
            (false, "",
             "Claude CLI ('claude') not found on PATH. Install the claude CLI to process tasks.",
             false)
          else
            match agentResult with
            | .error e => (false, "", e, true)
            | .ok (rc, out, err) => (rc == 0, out, err, true)
      match t.tid with
      | none => .error "KeyError: 'id'"
      | some tid =>
          .ok { ok := tryRes.1, stdoutArt := tryRes.2.1, stderrArt := tryRes.2.2.1,
                agentInvoked := tryRes.2.2.2,
                log := [("id", .s tid), ("ok", .b tryRes.1), ("latency_s", .n latency)] }

/-! ## Queue-state lemmas -/

theorem mem_insertSorted {x a : String} {l : List String} :
    x ∈ insertSorted a l ↔ x = a ∨ x ∈ l := by
  induction l with
  | nil => simp [insertSorted]
  | cons b l ih =>
      by_cases h : nameLe a b
      · simp [insertSorted, h]
      · simp [insertSorted, h, ih]
        tauto

theorem mem_sortedIds {x : String} {l : List String} : x ∈ sortedIds l ↔ x ∈ l := by
  induction l with
  | nil => simp [sortedIds]
  | cons a l ih =>
      show x ∈ insertSorted a (sortedIds l) ↔ _
      rw [mem_insertSorted, ih]
      simp

theorem claim_some_mem {s : QueueState} {id : String}
    (h : (claim s).1 = some id) : id ∈ s.inbox := by
  unfold claim at h
  cases hh : (sortedIds s.inbox).head? with
  | none => rw [hh] at h; simp at h
  | some y =>
      rw [hh] at h
      simp at h
      subst h
      exact mem_sortedIds.mp (List.mem_of_mem_head? hh)

theorem claim_none_eq {s : QueueState} (h : (claim s).1 = none) :
    (claim s).2 = s := by
  unfold claim at *
  cases hh : (sortedIds s.inbox).head? with
  | none => rfl
  | some y => rw [hh] at h; simp at h

theorem claim_some_snd {s : QueueState} {id : String}
    (h : (claim s).1 = some id) :
    (claim s).2 = { s with inbox := s.inbox.erase id, running := id :: s.running } := by
  unfold claim at *
  cases hh : (sortedIds s.inbox).head? with
  | none => rw [hh] at h; simp at h
  | some y => rw [hh] at h; simp at h; subst h; rfl

theorem count_cons_self' (a : String) (l : List String) :
    (a :: l).count a = l.count a + 1 := by
  simp [List.count_cons]

theorem count_cons_ne' {a b : String} (h : b ≠ a) (l : List String) :
    (a :: l).count b = l.count b := by
  simp [List.count_cons, h]

theorem residency_enqueue (s : QueueState) (id x : String) :
    residency (enqueue s id) x = residency s x + (if x = id then 1 else 0) := by
  simp only [residency, enqueue]
  by_cases h : x = id
  · subst h; rw [count_cons_self' x s.inbox]; simp; omega
  · rw [count_cons_ne' h s.inbox]; simp [h]

theorem residency_claim (s : QueueState) (x : String) :
    residency (claim s).2 x = residency s x := by
  cases hc : (claim s).1 with
  | none => rw [claim_none_eq hc]
  | some id =>
      have hmem : id ∈ s.inbox := claim_some_mem hc
      rw [claim_some_snd hc]
      simp only [residency]
      by_cases h : x = id
      · subst h
        have hpos : 0 < s.inbox.count x := List.count_pos_iff.mpr hmem
        rw [List.count_erase_self, count_cons_self' x s.running]
        omega
      · rw [List.count_erase_of_ne h, count_cons_ne' h s.running]

theorem residency_finish {s : QueueState} {id : String} (hmem : id ∈ s.running)
    (ok : Bool) (x : String) :
    residency (finish s id ok) x = residency s x := by
  simp only [residency, finish]
  by_cases h : x = id
  · subst h
    have hpos : 0 < s.running.count x := List.count_pos_iff.mpr hmem
    rw [List.count_erase_self]
    cases ok
    · simp only [Bool.false_eq_true, if_neg, ite_false]
      rw [count_cons_self' x s.failed]
      omega
    · simp only [ite_true]
      rw [count_cons_self' x s.done]
      omega
  · rw [List.count_erase_of_ne h]
    cases ok
    · simp only [Bool.false_eq_true, ite_false]
      rw [count_cons_ne' h s.failed]
    · simp only [ite_true]
      rw [count_cons_ne' h s.done]

theorem exclusive_of_nodup {s : QueueState}
    (h : (s.inbox ++ s.running ++ s.done ++ s.failed).Nodup) : Exclusive s := by
  intro id
  have h1 := List.nodup_iff_count_le_one.mp h id
  simp only [List.count_append] at h1
  simp only [residency]
  omega

theorem not_mem_erase_of_count_le_one {a : String} {l : List String}
    (h : l.count a ≤ 1) : a ∉ l.erase a := by
  intro hmem
  have hpos := List.count_pos_iff.mpr hmem
  rw [List.count_erase_self] at hpos
  omega

theorem claim_done_eq (s : QueueState) : (claim s).2.done = s.done := by
  cases hc : (claim s).1 with
  | none => rw [claim_none_eq hc]
  | some id => rw [claim_some_snd hc]

theorem claim_failed_eq (s : QueueState) : (claim s).2.failed = s.failed := by
  cases hc : (claim s).1 with
  | none => rw [claim_none_eq hc]
  | some id => rw [claim_some_snd hc]

theorem claim_inbox_subset (s : QueueState) :
    ∀ x, x ∈ (claim s).2.inbox → x ∈ s.inbox := by
  cases hc : (claim s).1 with
  | none => rw [claim_none_eq hc]; exact fun x hx => hx
  | some id =>
      rw [claim_some_snd hc]
      exact fun x hx => List.mem_of_mem_erase hx

/-- The legal-transition behaviour of the four queue operations on a state:
enqueue adds to `inbox` only; claim moves exactly the claimed record from
`inbox` to `running`; finish moves exactly the finished record from `running`
to `done`/`failed`; the drain deletes the terminal records and touches nothing
else.  Exclusivity (`residency ≤ 1`) is preserved throughout. -/
def StateMachineOK (s : QueueState) (nid fid : String) (ok : Bool) : Prop :=
  (Exclusive (enqueue s nid) ∧ residency (enqueue s nid) nid = 1 ∧
    nid ∈ (enqueue s nid).inbox ∧
    (enqueue s nid).running = s.running ∧ (enqueue s nid).done = s.done ∧
    (enqueue s nid).failed = s.failed)
  ∧
  (Exclusive (claim s).2 ∧ (∀ x, residency (claim s).2 x = residency s x) ∧
    (claim s).2.done = s.done ∧ (claim s).2.failed = s.failed ∧
    (∀ x, x ∈ (claim s).2.inbox → x ∈ s.inbox) ∧
    (∀ cid, (claim s).1 = some cid →
      cid ∈ s.inbox ∧ cid ∈ (claim s).2.running ∧ cid ∉ (claim s).2.inbox) ∧
    ((claim s).1 = none → (claim s).2 = s))
  ∧
  (Exclusive (finish s fid ok) ∧
    (∀ x, residency (finish s fid ok) x = residency s x) ∧
    (finish s fid ok).inbox = s.inbox ∧
    fid ∉ (finish s fid ok).running ∧
    (ok = true → (finish s fid ok).done = fid :: s.done ∧
      (finish s fid ok).failed = s.failed) ∧
    (ok = false → (finish s fid ok).failed = fid :: s.failed ∧
      (finish s fid ok).done = s.done))
  ∧
  (∀ sc, (judgeCycle sc s).queue.inbox = s.inbox ∧
    (judgeCycle sc s).queue.running = s.running ∧
    (judgeCycle sc s).queue.done = [] ∧ (judgeCycle sc s).queue.failed = [])

/-- **C1**: a job id resides in exactly one of the four state directories at
any instant, and the operations perform only the legal transitions —
`enqueue` creates a record in `inbox`, `claim` moves a record `inbox→running`,
`finish` moves it `running→done` or `running→failed`, nothing ever moves a
record back to `inbox`, and nothing removes it from `done`/`failed` except
deletion by the drain cycle. -/
theorem c1_state_directory_exclusivity
    (s : QueueState) (nid fid : String) (ok : Bool)
    (hs : Exclusive s) (hfresh : residency s nid = 0) (hrun : fid ∈ s.running) :
    StateMachineOK s nid fid ok := by
  refine ⟨⟨?_, ?_, ?_, rfl, rfl, rfl⟩,
          ⟨?_, residency_claim s, claim_done_eq s, claim_failed_eq s,
           claim_inbox_subset s, ?_, claim_none_eq⟩,
          ⟨?_, residency_finish hrun ok, rfl, ?_, ?_, ?_⟩,
          fun sc => ⟨rfl, rfl, rfl, rfl⟩⟩
  · intro x
    rw [residency_enqueue]
    by_cases hx : x = nid
    · subst hx; rw [hfresh]; simp
    · have := hs x
      simp [hx]
      omega
  · rw [residency_enqueue, hfresh]; simp
  · exact List.mem_cons_self nid s.inbox
  · intro x
    rw [residency_claim]
    exact hs x
  · intro cid hc
    have h1 : s.inbox.count cid ≤ 1 := by
      have := hs cid
      simp only [residency] at this
      omega
    refine ⟨claim_some_mem hc, ?_, ?_⟩
    · rw [claim_some_snd hc]
      exact List.mem_cons_self cid s.running
    · rw [claim_some_snd hc]
      exact not_mem_erase_of_count_le_one h1
  · intro x
    rw [residency_finish hrun ok]
    exact hs x
  · have h1 : s.running.count fid ≤ 1 := by
      have := hs fid
      simp only [residency] at this
      omega
    exact not_mem_erase_of_count_le_one h1
  · intro h; subst h; exact ⟨rfl, rfl⟩
  · intro h; subst h; exact ⟨rfl, rfl⟩

/-- Witness for C1 at a concrete queue state. -/
theorem c1_state_directory_exclusivity_witness :
    Exclusive (QueueState.mk ["a"] ["b"] ["c"] ["d"]) ∧
    residency (QueueState.mk ["a"] ["b"] ["c"] ["d"]) "n" = 0 ∧
    "b" ∈ (QueueState.mk ["a"] ["b"] ["c"] ["d"]).running ∧
    StateMachineOK (QueueState.mk ["a"] ["b"] ["c"] ["d"]) "n" "b" true := by
  have hs : Exclusive (QueueState.mk ["a"] ["b"] ["c"] ["d"]) :=
    exclusive_of_nodup (by decide)
  exact ⟨hs, by decide, by decide,
    c1_state_directory_exclusivity _ "n" "b" true hs (by decide) (by decide)⟩

/-! ## C2: plan failure short-circuit -/

/-- A concrete agent whose plan invocation exits 1 and whose apply invocation
exits 0. -/
def agentPlanFails : SubprocCall → ProcResult :=
  fun c =>
    if c.args = ["claude", "-p", "PLAN"] then
      { returncode := 1, stdout := "plan out", stderr := "plan err" }
    else
      { returncode := 0, stdout := "apply out", stderr := "" }

/-- Counterexample to C2 as stated: in `util.py`'s `claude_plan_apply` the
plan invocation exits 1, yet the apply invocation is still issued, the
returned status is the apply's exit 0, and `run_once` therefore moves the job
to `done`, not `failed`. -/
theorem c2_counterexample :
    (agentPlanFails (util_run_call ["claude", "-p", "PLAN"])).returncode = 1 ∧
    (claude_plan_apply true "r" "PLAN" "APPLY" "t1" "t2" agentPlanFails).calls =
      [util_run_call ["claude", "-p", "PLAN"], util_run_call ["claude", "-p", "APPLY"]] ∧
    (claude_plan_apply true "r" "PLAN" "APPLY" "t1" "t2" agentPlanFails).rc = 0 ∧
    run_once true
      (.ok ((claude_plan_apply true "r" "PLAN" "APPLY" "t1" "t2" agentPlanFails).rc,
            (claude_plan_apply true "r" "PLAN" "APPLY" "t1" "t2" agentPlanFails).out,
            (claude_plan_apply true "r" "PLAN" "APPLY" "t1" "t2" agentPlanFails).err))
      7 (.parsed ⟨some "j1", some "r", some "do it"⟩) =
      .ok { ok := true, stdoutArt := "plan out\n---\napply out",
            stderrArt := "plan err\n---\n", agentInvoked := true,
            log := [("id", .s "j1"), ("ok", .b true), ("latency_s", .n 7)] } := by
  refine ⟨by decide, by decide, by decide, rfl⟩

/-- **C2** (amended): in the service variant (`process_job`), for every job
whose plan invocation exits non-zero the apply invocation is never executed,
no apply artifact is written, and the job transitions to `failed`; the generic
`claude_plan_apply` of `util.py`, by contrast, runs the apply invocation
unconditionally (see the counterexample). -/
theorem c2_plan_failure_short_circuit
    (env : ServiceEnv) (now : Int) (freshId : String) (computeKey : String → String)
    (jid jdir jprompt jrepoKey : Option String)
    (hplan : env.planProc.returncode ≠ 0) :
    (process_job env now freshId computeKey (.parsed jid jdir jprompt jrepoKey)).applyInvoked = false ∧
    (process_job env now freshId computeKey (.parsed jid jdir jprompt jrepoKey)).success = false ∧
    (process_job env now freshId computeKey (.parsed jid jdir jprompt jrepoKey)).artifacts.find?
      (fun a => a.1 == "apply.stdout.txt") = none ∧
    (process_job env now freshId computeKey (.parsed jid jdir jprompt jrepoKey)).artifacts.find?
      (fun a => a.1 == "apply.stderr.txt") = none := by
  cases hrepo : env.repoIsDir with
  | false => simp [process_job, hrepo, List.find?]
  | true =>
      by_cases hprompt : pyStrip (jprompt.getD "") = ""
      · simp [process_job, hrepo, hprompt, List.find?]
      · cases hclaude : env.claudeFound with
        | false => simp [process_job, hrepo, hprompt, hclaude, List.find?]
        | true => simp [process_job, hrepo, hprompt, hclaude, hplan, List.find?]

/-- Environment with a failing plan step for the C2/C3 witnesses. -/
def envPlanFail : ServiceEnv :=
  { repoIsDir := true, claudeFound := true, supportsDashP := true,
    planProc := { returncode := 1, stdout := "po", stderr := "pe" },
    applyProc := { returncode := 0, stdout := "ao", stderr := "ae" } }

/-- Witness for the amended C2 at a concrete environment. -/
theorem c2_plan_failure_short_circuit_witness :
    envPlanFail.planProc.returncode ≠ 0 ∧
    (process_job envPlanFail 0 "f" (fun _ => "k")
       (.parsed (some "j") (some "/r") (some "p") none)).applyInvoked = false ∧
    (process_job envPlanFail 0 "f" (fun _ => "k")
       (.parsed (some "j") (some "/r") (some "p") none)).success = false ∧
    (process_job envPlanFail 0 "f" (fun _ => "k")
       (.parsed (some "j") (some "/r") (some "p") none)).artifacts.find?
      (fun a => a.1 == "apply.stdout.txt") = none ∧
    (process_job envPlanFail 0 "f" (fun _ => "k")
       (.parsed (some "j") (some "/r") (some "p") none)).artifacts.find?
      (fun a => a.1 == "apply.stderr.txt") = none := by
  have h := c2_plan_failure_short_circuit envPlanFail 0 "f" (fun _ => "k")
    (some "j") (some "/r") (some "p") none (by decide)
  exact ⟨by decide, h.1, h.2.1, h.2.2.1, h.2.2.2⟩

/-! ## C3: the apply exit status is authoritative -/

/-- **C3**: on every claimed job where both plan and apply invocations run,
the job transitions to `done` iff the apply invocation exits 0 — in
`process_job` the `finish_job` flag is exactly `apply_proc.returncode == 0`,
and in `claude_plan_apply` the returned status is always the apply
invocation's exit status, regardless of the plan invocation's result. -/
theorem c3_apply_exit_authoritative
    (env : ServiceEnv) (now : Int) (freshId : String) (computeKey : String → String)
    (rec : JobRecord)
    (hboth : (process_job env now freshId computeKey rec).applyInvoked = true) :
    ((process_job env now freshId computeKey rec).success = true ↔
      env.applyProc.returncode = 0) ∧
    (∀ (dashP : Bool) (repo plan_md apply_md t1 t2 : String)
       (agent : SubprocCall → ProcResult),
      (claude_plan_apply dashP repo plan_md apply_md t1 t2 agent).rc =
        (agent (if dashP then util_run_call ["claude", "-p", apply_md]
                else util_run_call
                  ["claude", "code", "apply", "--repo", repo, "--plan", t2])).returncode) ∧
    (∀ (tid repo prompt out err : String) (rc lat : Int),
      (run_once true (.ok (rc, out, err)) lat
          (.parsed ⟨some tid, some repo, some prompt⟩)).map (fun o => o.ok) =
        .ok (rc == 0)) := by
  refine ⟨?_, ?_, ?_⟩
  · cases rec with
    | malformed stem => simp [process_job] at hboth
    | parsed a b c d =>
        cases hrepo : env.repoIsDir with
        | false => simp [process_job, hrepo] at hboth
        | true =>
          by_cases hprompt : pyStrip (c.getD "") = ""
          · simp [process_job, hrepo, hprompt] at hboth
          · cases hclaude : env.claudeFound with
            | false => simp [process_job, hrepo, hprompt, hclaude] at hboth
            | true =>
                by_cases h4 : env.planProc.returncode = 0
                · simp [process_job, hrepo, hprompt, hclaude, h4, beq_iff_eq]
                · simp [process_job, hrepo, hprompt, hclaude, h4] at hboth
  · intro dashP repo plan_md apply_md t1 t2 agent
    cases dashP <;> rfl
  · intro tid repo prompt out err rc lat
    rfl

/-- Witness for C3 at a concrete environment where both steps run. -/
theorem c3_apply_exit_authoritative_witness :
    (process_job
        (ServiceEnv.mk true true true
          (ProcResult.mk 0 "po" "pe") (ProcResult.mk 0 "ao" "ae"))
        0 "f" (fun _ => "k")
        (.parsed (some "j") (some "/r") (some "p") none)).applyInvoked = true ∧
    ((process_job
        (ServiceEnv.mk true true true
          (ProcResult.mk 0 "po" "pe") (ProcResult.mk 0 "ao" "ae"))
        0 "f" (fun _ => "k")
        (.parsed (some "j") (some "/r") (some "p") none)).success = true ↔
      (ProcResult.mk 0 "ao" "ae").returncode = 0) := by
  have h := c3_apply_exit_authoritative
    (ServiceEnv.mk true true true (ProcResult.mk 0 "po" "pe") (ProcResult.mk 0 "ao" "ae"))
    0 "f" (fun _ => "k")
    (.parsed (some "j") (some "/r") (some "p") none) (by decide)
  exact ⟨by decide, h.1⟩

/-! ## C4: the exception boundary of the worker loops -/

/-- Counterexample to C4 as stated: in `worker.py`, a claimed job whose record
file is not valid JSON raises `json.JSONDecodeError` outside the `try` block;
`run_once` propagates the exception, the job is never moved to `failed`, no
log entry is written, and the `while True: run_once()` loop terminates with
the record stuck in `running`. -/
theorem c4_counterexample :
    run_once true (.ok (0, "", "")) 0 .malformed = .error "json.JSONDecodeError" := rfl

/-- **C4** (amended): in the service variant every exception raised by
`process_job` is caught at the `Worker.run` loop boundary — the claimed job
is forced to `failed`, a log entry recording the exception is appended, and
the loop continues; in the generic worker, an exception raised inside
`run_once`'s `try` block (the agent step) is likewise absorbed into a
`failed` finish with a log entry and the loop survives — but an exception
while parsing the claimed record (invalid JSON, missing `id` key) propagates
out of `run_once` and terminates that worker loop (see the counterexample). -/
theorem c4_worker_exception_boundary (now lat : Int) (stem e agentErr : String)
    (tid trepo tprompt : String) :
    (workerIteration now (some stem) (.error e)).finished = some false ∧
    (workerIteration now (some stem) (.error e)).log =
      some (log_event now
        [("id", .s stem), ("dir", .null), ("repo_key", .null),
         ("ok", .b false), ("error", .s ("Worker exception: " ++ e))]) ∧
    (workerIteration now (some stem) (.error e)).continues = true ∧
    run_once true (.error agentErr) lat (.parsed ⟨some tid, some trepo, some tprompt⟩) =
      .ok { ok := false, stdoutArt := "", stderrArt := agentErr, agentInvoked := true,
            log := [("id", .s tid), ("ok", .b false), ("latency_s", .n lat)] } :=
  ⟨rfl, rfl, rfl, rfl⟩

/-! ## C5: validation short-circuit -/

/-- Counterexample to C5 as stated: in `worker.py` `run_once`, a claimed job
with an empty prompt still invokes the agent (there is no validation), may
finish `done`, and no error artifact is written. -/
theorem c5_counterexample :
    run_once true (.ok (0, "out", "")) 3 (.parsed ⟨some "j2", some "/repo", some ""⟩) =
      .ok { ok := true, stdoutArt := "out", stderrArt := "", agentInvoked := true,
            log := [("id", .s "j2"), ("ok", .b true), ("latency_s", .n 3)] } := rfl

/-- **C5** (amended): in the service variant (`process_job`), a claimed job
whose repository path is not an existing directory or whose prompt is empty
after stripping never invokes the agent, transitions to `failed`, and its
artifact bundle is exactly one `error.txt`; the generic worker variant
performs no such validation (see the counterexample). -/
theorem c5_validation_short_circuit
    (env : ServiceEnv) (now : Int) (freshId : String) (computeKey : String → String)
    (jid jdir jprompt jrepoKey : Option String)
    (hbad : env.repoIsDir = false ∨ pyStrip (jprompt.getD "") = "") :
    (process_job env now freshId computeKey (.parsed jid jdir jprompt jrepoKey)).planInvoked = false ∧
    (process_job env now freshId computeKey (.parsed jid jdir jprompt jrepoKey)).applyInvoked = false ∧
    (process_job env now freshId computeKey (.parsed jid jdir jprompt jrepoKey)).success = false ∧
    (∃ m, (process_job env now freshId computeKey (.parsed jid jdir jprompt jrepoKey)).artifacts
        = [("error.txt", m)]) := by
  cases hrepo : env.repoIsDir with
  | false =>
      exact ⟨by simp [process_job, hrepo], by simp [process_job, hrepo],
             by simp [process_job, hrepo],
             ⟨"Repository path does not exist: " ++ jdir.getD ".",
              by simp [process_job, hrepo]⟩⟩
  | true =>
      have hp : pyStrip (jprompt.getD "") = "" := by
        rcases hbad with h | h
        · rw [hrepo] at h; exact absurd h (by simp)
        · exact h
      exact ⟨by simp [process_job, hrepo, hp], by simp [process_job, hrepo, hp],
             by simp [process_job, hrepo, hp],
             ⟨"Empty prompt provided.", by simp [process_job, hrepo, hp]⟩⟩

/-- Witness for the amended C5: a job whose prompt is whitespace only. -/
theorem c5_validation_short_circuit_witness :
    ((ServiceEnv.mk true true true (ProcResult.mk 0 "" "") (ProcResult.mk 0 "" "")).repoIsDir = false ∨
      pyStrip ((some "  \n ").getD "") = "") ∧
    (process_job (ServiceEnv.mk true true true (ProcResult.mk 0 "" "") (ProcResult.mk 0 "" ""))
        0 "f" (fun _ => "k")
        (.parsed (some "j") (some "/r") (some "  \n ") none)).planInvoked = false ∧
    (process_job (ServiceEnv.mk true true true (ProcResult.mk 0 "" "") (ProcResult.mk 0 "" ""))
        0 "f" (fun _ => "k")
        (.parsed (some "j") (some "/r") (some "  \n ") none)).applyInvoked = false ∧
    (process_job (ServiceEnv.mk true true true (ProcResult.mk 0 "" "") (ProcResult.mk 0 "" ""))
        0 "f" (fun _ => "k")
        (.parsed (some "j") (some "/r") (some "  \n ") none)).success = false ∧
    (∃ m, (process_job (ServiceEnv.mk true true true (ProcResult.mk 0 "" "") (ProcResult.mk 0 "" ""))
        0 "f" (fun _ => "k")
        (.parsed (some "j") (some "/r") (some "  \n ") none)).artifacts = [("error.txt", m)]) := by
  have h := c5_validation_short_circuit
    (ServiceEnv.mk true true true (ProcResult.mk 0 "" "") (ProcResult.mk 0 "" ""))
    0 "f" (fun _ => "k") (some "j") (some "/r") (some "  \n ") none (Or.inr (by decide))
  exact ⟨Or.inr (by decide), h.1, h.2.1, h.2.2.1, h.2.2.2⟩

/-! ## C6: subprocess timeouts -/

/-- Counterexample to C6 as stated: the agent invocations issued by the
service variant's `_run_subprocess` (used by `run_plan` and `run_apply`)
carry no timeout at all. -/
theorem c6_counterexample :
    (run_plan_call true "/usr/bin/claude" "PLAN PROMPT" "/repo" "/tmp/t.md").timeoutSeconds
      = none ∧
    (run_apply_call false "/usr/bin/claude" "APPLY PROMPT" "/repo" "/tmp/t.md").timeoutSeconds
      = none := by decide

/-- **C6** (amended): in the generic worker variant every agent invocation of
`claude_plan_apply` is bounded by a 600-second timeout (and the capability
probes by 15 s/10 s ones), and a timeout raised during the agent step is
caught inside `run_once` — the job alone fails and the worker survives; the
service variant's `_run_subprocess`, however, passes no timeout (see the
counterexample). -/
theorem c6_generic_agent_calls_bounded
    (dashP : Bool) (repo plan_md apply_md t1 t2 : String)
    (agent : SubprocCall → ProcResult) (c : SubprocCall)
    (hc : c ∈ (claude_plan_apply dashP repo plan_md apply_md t1 t2 agent).calls) :
    c.timeoutSeconds = some 600 ∧
    cli_help_call.timeoutSeconds = some 15 ∧
    (∀ cli, (detect_help_call cli).timeoutSeconds = some 10) ∧
    (∀ (tid trepo tprompt : String) (lat : Int),
      run_once true (.error "TimeoutExpired") lat (.parsed ⟨some tid, some trepo, some tprompt⟩) =
        .ok { ok := false, stdoutArt := "", stderrArt := "TimeoutExpired",
              agentInvoked := true,
              log := [("id", .s tid), ("ok", .b false), ("latency_s", .n lat)] }) := by
  refine ⟨?_, rfl, fun _ => rfl, fun _ _ _ _ => rfl⟩
  cases dashP <;>
    simp [claude_plan_apply, util_run_call] at hc <;>
    rcases hc with h | h <;> subst h <;> rfl

/-- Witness for the amended C6 at a concrete invocation. -/
theorem c6_generic_agent_calls_bounded_witness :
    util_run_call ["claude", "-p", "P"] ∈
      (claude_plan_apply true "r" "P" "A" "t1" "t2"
        (fun _ => ProcResult.mk 0 "" "")).calls ∧
    (util_run_call ["claude", "-p", "P"]).timeoutSeconds = some 600 := by
  have h := c6_generic_agent_calls_bounded true "r" "P" "A" "t1" "t2"
    (fun _ => ProcResult.mk 0 "" "") (util_run_call ["claude", "-p", "P"]) (by decide)
  exact ⟨by decide, h.1⟩

/-! ## C7: what the apply text embeds -/

theorem infix_applyTemplate (job_id repo rules plan prompt : String) :
    plan.data <:+: (applyTemplate job_id repo rules plan prompt).data := by
  refine ⟨("# TaskArena Apply Instructions\n\nYou are executing TaskArena job " ++ job_id
      ++ " in repository " ++ repo
      ++ ".\n\n## Combined Rules (Host precedence)\n" ++ rules
      ++ "\n\n## Approved Plan\n").data,
    ("\n\n## Task Prompt\n" ++ prompt
      ++ "\n\nFollow the approved plan. Explain the changes you make and ensure artifacts are generated.\n").data,
    ?_⟩
  simp [applyTemplate, String.data_append, List.append_assoc]

set_option maxRecDepth 4096 in
/-- Counterexample to C7 as stated: with plan stdout `" x "` (a successful
plan step), the apply text embeds the stripped `"x"`, not the stdout
verbatim — the raw stdout does not even occur as a substring of the apply
text. -/
theorem c7_counterexample :
    run_apply_prompt "j" "/r" "R" " x " "P" ≠ run_apply_prompt_spec "j" "/r" "R" " x " "P" ∧
    ¬ (" x ".data <:+: (run_apply_prompt "j" "/r" "R" " x " "P").data) := by
  constructor
  · decide
  · decide

/-- **C7** (amended): in either invocation style the apply text embeds the
*stripped* plan stdout verbatim as the approved plan — and when the stripped
stdout is empty, the fixed placeholder "Plan output missing." instead. -/
theorem c7_apply_embeds_stripped_plan
    (job_id repo rules plan_output prompt : String)
    (h : pyStrip plan_output ≠ "") :
    run_apply_prompt job_id repo rules plan_output prompt =
      run_apply_prompt_spec job_id repo rules (pyStrip plan_output) prompt ∧
    (pyStrip plan_output).data <:+:
      (run_apply_prompt job_id repo rules plan_output prompt).data ∧
    (∀ po, pyStrip po = "" →
      run_apply_prompt job_id repo rules po prompt =
        run_apply_prompt_spec job_id repo rules "Plan output missing." prompt) := by
  refine ⟨?_, ?_, ?_⟩
  · simp [run_apply_prompt, run_apply_prompt_spec, h]
  · have he : run_apply_prompt job_id repo rules plan_output prompt =
        applyTemplate job_id repo rules (pyStrip plan_output) prompt := by
      simp [run_apply_prompt, h]
    rw [he]
    exact infix_applyTemplate job_id repo rules (pyStrip plan_output) prompt
  · intro po hpo
    simp [run_apply_prompt, run_apply_prompt_spec, hpo]

/-- Witness for the amended C7 at a concrete plan output. -/
theorem c7_apply_embeds_stripped_plan_witness :
    pyStrip " the plan " ≠ "" ∧
    run_apply_prompt "j" "/r" "R" " the plan " "P" =
      run_apply_prompt_spec "j" "/r" "R" (pyStrip " the plan ") "P" ∧
    (pyStrip " the plan ").data <:+: (run_apply_prompt "j" "/r" "R" " the plan " "P").data := by
  have h := c7_apply_embeds_stripped_plan "j" "/r" "R" " the plan " "P" (by decide)
  exact ⟨by decide, h.1, h.2.1⟩

/-! ## C8: log entry fields -/

/-- Counterexample to C8 as stated: the `logj` entry written by `worker.py`
for a terminal job carries `id`, `ok` and `latency_s` but no timestamp
field. -/
theorem c8_counterexample :
    (run_once true (.ok (0, "o", "e")) 5 (.parsed ⟨some "j3", some "/r", some "p"⟩)).map
      (fun o => (o.log, lookupKey o.log "ts")) =
    .ok ([("id", .s "j3"), ("ok", .b true), ("latency_s", .n 5)], none) := rfl

/-- **C8** (amended): every terminal log entry of the service variant is one
JSON object containing `id`, a boolean `ok`, a `ts` timestamp and (on
failure paths) an `error` string — `log_event` supplies `ts`; the generic
worker's `logj` entries carry `id`, boolean `ok` and `latency_s` but no
timestamp (see the counterexample). -/
theorem c8_log_entry_fields
    (env : ServiceEnv) (now lat : Int) (freshId : String)
    (computeKey : String → String) (rec : JobRecord) :
    ((lookupKey (process_job env now freshId computeKey rec).log "id").isSome = true ∧
     (∃ bv, lookupKey (process_job env now freshId computeKey rec).log "ok" = some (.b bv)) ∧
     lookupKey (process_job env now freshId computeKey rec).log "ts" = some (.n now)) ∧
    (∀ stem e, ∃ i bv,
      (workerIteration now (some stem) (.error e)).log =
        some (log_event now
          [("id", .s stem), ("dir", .null), ("repo_key", .null),
           ("ok", .b false), ("error", .s ("Worker exception: " ++ e))]) ∧
      lookupKey ((workerIteration now (some stem) (.error e)).log.getD []) "id" = some i ∧
      lookupKey ((workerIteration now (some stem) (.error e)).log.getD []) "ok" = some (.b bv) ∧
      lookupKey ((workerIteration now (some stem) (.error e)).log.getD []) "ts" = some (.n now)) ∧
    (∀ (tid trepo tprompt out err : String) (rc : Int),
      (run_once true (.ok (rc, out, err)) lat (.parsed ⟨some tid, some trepo, some tprompt⟩)).map
        (fun o => (lookupKey o.log "id", lookupKey o.log "ok",
                   lookupKey o.log "latency_s", lookupKey o.log "ts")) =
      .ok (some (.s tid), some (.b (rc == 0)), some (.n lat), none)) := by
  refine ⟨?_, ?_, ?_⟩
  · cases rec with
    | malformed stem =>
        refine ⟨?_, ⟨false, ?_⟩, ?_⟩ <;>
          simp [process_job, log_event, lookupKey, List.find?]
    | parsed a b c d =>
        cases hrepo : env.repoIsDir with
        | false =>
            refine ⟨?_, ⟨false, ?_⟩, ?_⟩ <;>
              simp [process_job, hrepo, log_event, lookupKey, List.find?]
        | true =>
            by_cases hp : pyStrip (c.getD "") = ""
            · refine ⟨?_, ⟨false, ?_⟩, ?_⟩ <;>
                simp [process_job, hrepo, hp, log_event, lookupKey, List.find?]
            · cases hcl : env.claudeFound with
              | false =>
                  refine ⟨?_, ⟨false, ?_⟩, ?_⟩ <;>
                    simp [process_job, hrepo, hp, hcl, log_event, lookupKey, List.find?]
              | true =>
                  by_cases h4 : env.planProc.returncode = 0
                  · refine ⟨?_, ⟨env.applyProc.returncode == 0, ?_⟩, ?_⟩ <;>
                      simp [process_job, hrepo, hp, hcl, h4, log_event, lookupKey, List.find?]
                  · refine ⟨?_, ⟨false, ?_⟩, ?_⟩ <;>
                      simp [process_job, hrepo, hp, hcl, h4, log_event, lookupKey, List.find?]
  · intro stem e
    exact ⟨.s stem, false, rfl,
           by simp [workerIteration, log_event, lookupKey, List.find?],
           by simp [workerIteration, log_event, lookupKey, List.find?],
           by simp [workerIteration, log_event, lookupKey, List.find?]⟩
  · intro tid trepo tprompt out err rc
    rfl

/-! ## C9: drain idempotence on an empty terminal set -/

/-- **C9**: one drain cycle over empty `done`/`failed` directories leaves the
scoreboard's pass and fail counters unchanged (and rewrites the snapshot with
those same counters). -/
theorem c9_drain_idempotent_on_empty (sc : Score) (inbox running : List String) :
    (judgeCycle sc ⟨inbox, running, [], []⟩).score = sc ∧
    (judgeCycle sc ⟨inbox, running, [], []⟩).snapshot = .valid sc :=
  ⟨rfl, rfl⟩

/-! ## C10: scoreboard reset on a bad snapshot -/

theorem drainDone_eq (sc : Score) (l : List String) :
    drainDone sc l = { pass := sc.pass + l.length, fail := sc.fail } := by
  induction l generalizing sc with
  | nil => simp [drainDone]
  | cons a l ih =>
      show drainDone { pass := sc.pass + 1, fail := sc.fail } l = _
      rw [ih]
      simp [Nat.add_assoc, Nat.add_comm 1 l.length]

theorem drainFailed_eq (sc : Score) (l : List String) :
    drainFailed sc l = { pass := sc.pass, fail := sc.fail + l.length } := by
  induction l generalizing sc with
  | nil => simp [drainFailed]
  | cons a l ih =>
      show drainFailed { pass := sc.pass, fail := sc.fail + 1 } l = _
      rw [ih]
      simp [Nat.add_assoc, Nat.add_comm 1 l.length]

/-- **C10**: when the scoreboard snapshot file is missing or cannot be parsed,
`load_score` silently restarts both counters from zero, and the next drain
cycle overwrites the snapshot with counts accumulated from zero — any
previously stored totals are discarded (with a parseable snapshot they would
have been carried forward). -/
theorem c10_score_reset_on_bad_snapshot (raw : String) (s : QueueState) (sc : Score) :
    load_score .missing = { pass := 0, fail := 0 } ∧
    load_score (.corrupt raw) = { pass := 0, fail := 0 } ∧
    (judgeCycle (load_score .missing) s).snapshot =
      .valid { pass := s.done.length, fail := s.failed.length } ∧
    (judgeCycle (load_score (.corrupt raw)) s).snapshot =
      .valid { pass := s.done.length, fail := s.failed.length } ∧
    (judgeCycle (load_score (.valid sc)) s).snapshot =
      .valid { pass := sc.pass + s.done.length, fail := sc.fail + s.failed.length } := by
  refine ⟨rfl, rfl, ?_, ?_, ?_⟩ <;>
    simp [judgeCycle, load_score, drainDone_eq, drainFailed_eq]

end TaskArena
